import Mathlib

/-!
Shallow embedding of the I2C_Client_Driver repository (two kernel-driver
variants: `i2c_driver.c`, embedded below in namespace `V1`, and
`i2c_client_driver.c`, embedded in namespace `V2`) together with theorems
checking the natural-language specification against the code.

Modelling conventions:
* Machine integers are `Nat`/`Int`; 32-bit unsigned arithmetic is made
  explicit with `% UINT32`, and the store of a `u32` into a C `int` is the
  explicit reinterpretation `toInt32`.
* Bus I/O is modelled by traces: every operation returns, besides its C
  return value, the `List BusOp` of bus transactions and delays it performs,
  in order.  The return value that the kernel's `i2c_master_send` /
  `i2c_master_recv` would produce enters each embedded function as an
  explicit parameter (an `Int`, negative = transport failure, or an oracle
  `Nat → Int` for loops issuing many sends); code that inspects that value
  branches on the parameter, code that discards it ignores the parameter,
  exactly as the C source does.
* The 6 bytes delivered by a sensor read enter as `d : Fin 6 → Nat`
  (each `< 256`), modelling the contents of the receive buffer.
-/

set_option linter.unusedVariables false

namespace I2CClientDriver

/-- 2^32, the modulus of C `u32` arithmetic. -/
def UINT32 : Nat := 4294967296

/-- Reinterpret a `u32` value as a C 32-bit signed `int` (two's complement). -/
def toInt32 (x : Nat) : Int :=
  if x % UINT32 < 2147483648 then ((x % UINT32 : Nat) : Int)
  else ((x % UINT32 : Nat) : Int) - (UINT32 : Int)

/-- `u32` subtraction `a - b` (wrap-around mod 2^32). -/
def u32_sub (a b : Nat) : Nat := (a % UINT32 + (UINT32 - b % UINT32)) % UINT32

/-- A bus-visible action: a master send of the given bytes, a master receive
of the given length, or a blocking `msleep` of the given milliseconds. -/
inductive BusOp where
  | send : List Nat → BusOp
  | recv : Nat → BusOp
  | sleep : Nat → BusOp
deriving DecidableEq, Repr

/-- `u32 raw_humidity = ((data[1] << 12) | (data[2] << 4) | (data[3] >> 4))`
(i2c_driver.c:154, identically i2c_client_driver.c:114). -/
def raw_humidity (d : Fin 6 → Nat) : Nat :=
  ((d 1 <<< 12) ||| (d 2 <<< 4) ||| (d 3 >>> 4)) % UINT32

/-- `u32 raw_temperature = (((data[3] & 0x0F) << 16) | (data[4] << 8) | data[5])`
(i2c_driver.c:155, identically i2c_client_driver.c:115). -/
def raw_temperature (d : Fin 6 → Nat) : Nat :=
  (((d 3 &&& 0x0F) <<< 16) ||| (d 4 <<< 8) ||| d 5) % UINT32

/-- `*humidity = (raw_humidity * 1000) / 1048576` computed in `u32`
(i2c_driver.c:157, i2c_client_driver.c:131); the result is stored in an `int`. -/
def decode_humidity (rh : Nat) : Nat := ((rh % UINT32) * 1000 % UINT32) / 1048576

/-- `*temperature = ((raw_temperature * 2000) / 1048576) - 500` computed in
`u32` (the literal `500` is converted to unsigned, the subtraction wraps) and
stored into an `int` (i2c_driver.c:158, i2c_client_driver.c:132). -/
def decode_temperature (rt : Nat) : Int :=
  toInt32 (u32_sub ((rt % UINT32) * 2000 % UINT32 / 1048576) 500)

/-- The C result struct `struct aht20_data { int temperature; int humidity; }`
(i2c_client_driver.c:40); also models the two `int` out-parameters of
`AHT20_ReadData` in i2c_driver.c. -/
structure aht20_data where
  temperature : Int
  humidity : Int
deriving DecidableEq, Repr

/-- The decode step shared by both files: raw-field extraction followed by the
fixed-point scale/offset conversion (i2c_driver.c:154-158,
i2c_client_driver.c:114-115 and 131-132). -/
def decode (d : Fin 6 → Nat) : aht20_data :=
  { temperature := decode_temperature (raw_temperature d)
    humidity := (decode_humidity (raw_humidity d) : Int) }

/-- The Linux `_IOC(dir, type, nr, size)` request-code encoding: `nr` in bits
0-7, `type` in bits 8-15, `size` in bits 16-29, `dir` in bits 30-31. -/
def IOC (dir size typ nr : Nat) : Nat :=
  (dir <<< 30) ||| (size <<< 16) ||| (typ <<< 8) ||| nr

/-- `#define OLED_CLEAR _IO('o',1)` (i2c_client_driver.c:37); `'o' = 111`. -/
def OLED_CLEAR : Nat := IOC 0 0 111 1

/-- `#define OLED_FILL _IO('o',2)` (i2c_client_driver.c:38). -/
def OLED_FILL : Nat := IOC 0 0 111 2

/-- `#define AHT20_READ_DATA _IOR('a',1, struct aht20_data)`
(i2c_client_driver.c:45); `'a' = 97`, `sizeof(struct aht20_data) = 8`,
`_IOC_READ = 2`. -/
def AHT20_READ_DATA : Nat := IOC 2 8 97 1

/-- `-EINVAL`. -/
def EINVAL : Int := 22

/-- `-EFAULT`. -/
def EFAULT : Int := 14

/-- `-ENODEV`. -/
def ENODEV : Int := 19

namespace V1

/-!
Embedding of `i2c_driver.c` (module "ETX_I2C", version 1.50).
-/

/-- `I2C_Write` (i2c_driver.c:29-33): one `i2c_master_send` of `buf`; the
bus's return value `busRet` is passed back unchanged. -/
def I2C_Write (busRet : Int) (buf : List Nat) : Int × List BusOp :=
  (busRet, [BusOp.send buf])

/-- `SSD1306_Write` (i2c_driver.c:35-41): frames `data` with the control byte
`0x00` (command) or `0x40` (data) and sends both; the function is `void`, so
the `I2C_Write` result is discarded. -/
def SSD1306_Write (busRet : Int) (is_cmd : Bool) (data : Nat) : List BusOp :=
  (I2C_Write busRet [if is_cmd then 0x00 else 0x40, data]).2

/-- The 26 command bytes issued by `SSD1306_DisplayInit`
(i2c_driver.c:46-71), in source order. -/
def SSD1306_DisplayInit_cmds : List Nat :=
  [0xAE, 0xD5, 0x80, 0xA8, 0x3F, 0xD3, 0x00, 0x40, 0x8D, 0x14, 0x20, 0x00,
   0xA1, 0xC8, 0xDA, 0x12, 0x81, 0x80, 0xD9, 0xF1, 0xDB, 0x20, 0xA4, 0xA6,
   0x2E, 0xAF]

/-- `SSD1306_DisplayInit` (i2c_driver.c:43-72): `msleep(100)` then the 26
`SSD1306_Write(true, c)` calls in order; `busRets i` is the bus result of the
`i`-th send (discarded by the `void` writes). -/
def SSD1306_DisplayInit (busRets : Nat → Int) : List BusOp :=
  BusOp.sleep 100 ::
    (SSD1306_DisplayInit_cmds.enum.map
      fun p => SSD1306_Write (busRets p.1) true p.2).flatten

/-- `SSD1306_Fill` (i2c_driver.c:74-81): `128 * 8` iterations of
`SSD1306_Write(false, data)`. -/
def SSD1306_Fill (busRets : Nat → Int) (data : Nat) : List BusOp :=
  ((List.range (128 * 8)).map fun i => SSD1306_Write (busRets i) false data).flatten

/-- `etx_oled_probe` (i2c_driver.c:83-90): `SSD1306_DisplayInit()` then
`SSD1306_Fill(0xFF)`; always returns 0. -/
def etx_oled_probe (busRets fillRets : Nat → Int) : Int × List BusOp :=
  (0, SSD1306_DisplayInit busRets ++ SSD1306_Fill fillRets 0xFF)

/-- `etx_oled_remove` (i2c_driver.c:92-96): `SSD1306_Fill(0x00)`. -/
def etx_oled_remove (busRets : Nat → Int) : List BusOp :=
  SSD1306_Fill busRets 0x00

/-- `AHT20_Init` (i2c_driver.c:120-131): sends the 3-byte calibration command
`{0xBE, 0x08, 0x00}`, logs on failure, `msleep(40)` on both paths, and
returns the send's result. -/
def AHT20_Init (sendRet : Int) : Int × List BusOp :=
  (sendRet, [BusOp.send [0xBE, 0x08, 0x00], BusOp.sleep 40])

/-- `AHT20_ReadData` (i2c_driver.c:133-165): sends the trigger
`{0xAC, 0x33, 0x00}` and returns its error if negative; else `msleep(80)`,
receives 6 bytes and returns that error if negative; else decodes `d` into
the two `int` out-parameters and returns 0.  `Except.ok` carries the reading
written through the out-parameters; `Except.error e` is `return e` with the
out-parameters untouched. -/
def AHT20_ReadData (sendRet recvRet : Int) (d : Fin 6 → Nat) :
    Except Int aht20_data × List BusOp :=
  if sendRet < 0 then
    (Except.error sendRet, [BusOp.send [0xAC, 0x33, 0x00]])
  else if recvRet < 0 then
    (Except.error recvRet,
      [BusOp.send [0xAC, 0x33, 0x00], BusOp.sleep 80, BusOp.recv 6])
  else
    (Except.ok (decode d),
      [BusOp.send [0xAC, 0x33, 0x00], BusOp.sleep 80, BusOp.recv 6])

/-- `aht20_probe` (i2c_driver.c:167-175): runs `AHT20_Init` and
`AHT20_ReadData` discarding both results, and returns 0. -/
def aht20_probe (initRet trigRet recvRet : Int) (d : Fin 6 → Nat) :
    Int × List BusOp :=
  (0, (AHT20_Init initRet).2 ++ (AHT20_ReadData trigRet recvRet d).2)

/-- `etx_driver_init` (i2c_driver.c:208-251).  Inputs: the module parameter
`select_device` (0 = both, 1 = OLED, 2 = AHT20), whether the adapter lookup
succeeds, and whether each `i2c_new_client_device` call succeeds.  Output:
the function's return value and, for each device, whether its driver was
registered.  A failed client-device creation is only logged; the other
device's block still runs, and the function returns 0. -/
def etx_driver_init (select_device : Int)
    (adapterOk oledCreateOk ahtCreateOk : Bool) : Int × Bool × Bool :=
  if adapterOk = false then (-ENODEV, false, false)
  else
    ((0 : Int),
     (if select_device = 0 ∨ select_device = 1 then oledCreateOk else false),
     (if select_device = 0 ∨ select_device = 2 then ahtCreateOk else false))

end V1

namespace V2

/-!
Embedding of `i2c_client_driver.c` (char-device variant, version 2.0).
-/

/-- `oled_write` (i2c_client_driver.c:49-53): one `i2c_master_send` of
`{mode, data}`; `void`, so the bus result `busRet` is discarded. -/
def oled_write (busRet : Int) (mode data : Nat) : List BusOp :=
  [BusOp.send [mode, data]]

/-- `oled_init` (i2c_client_driver.c:55-62): `msleep(100)` then the 4
commands `0xAE, 0xA8, 0x3F, 0xAF`. -/
def oled_init (busRets : Nat → Int) : List BusOp :=
  BusOp.sleep 100 :: (oled_write (busRets 0) 0x00 0xAE ++
    oled_write (busRets 1) 0x00 0xA8 ++ oled_write (busRets 2) 0x00 0x3F ++
    oled_write (busRets 3) 0x00 0xAF)

/-- `oled_clear` (i2c_client_driver.c:64-69): 1024 iterations of
`oled_write(0x40, 0x00)`. -/
def oled_clear (busRets : Nat → Int) : List BusOp :=
  ((List.range 1024).map fun i => oled_write (busRets i) 0x40 0x00).flatten

/-- `oled_fill` (i2c_client_driver.c:71-76): 1024 iterations of
`oled_write(0x40, 0xFF)`. -/
def oled_fill (busRets : Nat → Int) : List BusOp :=
  ((List.range 1024).map fun i => oled_write (busRets i) 0x40 0xFF).flatten

/-- `oled_ioctl` (i2c_client_driver.c:79-92): dispatch on `cmd`; unknown
codes return `-EINVAL` without touching the bus. -/
def oled_ioctl (busRets : Nat → Int) (cmd : Nat) : Int × List BusOp :=
  if cmd = OLED_CLEAR then (0, oled_clear busRets)
  else if cmd = OLED_FILL then (0, oled_fill busRets)
  else (-EINVAL, [])

/-- `oled_probe` (i2c_client_driver.c:147-153): stores the client and runs
`oled_init()`; always returns 0. -/
def oled_probe (busRets : Nat → Int) : Int × List BusOp :=
  (0, oled_init busRets)

/-- `aht20_trigger` (i2c_client_driver.c:101-105): sends `{0xAC, 0x33, 0x00}`
and returns the send's result. -/
def aht20_trigger (sendRet : Int) : Int × List BusOp :=
  (sendRet, [BusOp.send [0xAC, 0x33, 0x00]])

/-- `aht20_read_raw` (i2c_client_driver.c:107-117): `msleep(80)`, receives 6
bytes into `d` discarding `i2c_master_recv`'s result `recvRet`, extracts the
two raw fields, and always returns 0. -/
def aht20_read_raw (recvRet : Int) (d : Fin 6 → Nat) :
    (Int × Nat × Nat) × List BusOp :=
  ((0, raw_temperature d, raw_humidity d), [BusOp.sleep 80, BusOp.recv 6])

/-- `aht20_probe` (i2c_client_driver.c:155-160): stores the client and
returns 0; no bus transaction is performed. -/
def aht20_probe : Int × List BusOp :=
  (0, [])

/-- `aht20_ioctl` (i2c_client_driver.c:120-138): rejects any `cmd` other than
`AHT20_READ_DATA` with `-EINVAL`; otherwise calls `aht20_trigger` and
`aht20_read_raw` (both results discarded), decodes, and copies the struct to
the caller (`copyOk = false` models a `copy_to_user` fault, returning
`-EFAULT` with no reading delivered). -/
def aht20_ioctl (cmd : Nat) (sendRet recvRet : Int) (d : Fin 6 → Nat)
    (copyOk : Bool) : Int × Option aht20_data × List BusOp :=
  if cmd ≠ AHT20_READ_DATA then (-EINVAL, none, [])
  else if copyOk then
    (0, some (decode d),
      (aht20_trigger sendRet).2 ++ (aht20_read_raw recvRet d).2)
  else
    (-EFAULT, none,
      (aht20_trigger sendRet).2 ++ (aht20_read_raw recvRet d).2)

/-- `etx_init` (i2c_client_driver.c:191-219).  Inputs: whether the adapter
lookup succeeds, whether each `i2c_new_client_device` succeeds, and the
`PTR_ERR` codes for the failure cases.  Output: the return value and whether
each driver was registered.  A failed OLED client creation returns its error
before the sensor is attempted; a failed sensor client creation returns its
error before either `i2c_add_driver` call runs. -/
def etx_init (adapterOk oledCreateOk ahtCreateOk : Bool)
    (oledErr ahtErr : Int) : Int × Bool × Bool :=
  if adapterOk = false then (-ENODEV, false, false)
  else if oledCreateOk = false then (oledErr, false, false)
  else if ahtCreateOk = false then (ahtErr, false, false)
  else (0, true, true)

end V2

end I2CClientDriver

namespace I2CClientDriver

theorem raw_humidity_inner_lt (d : Fin 6 → Nat) (hd : ∀ i, d i < 256) :
    (d 1 <<< 12) ||| (d 2 <<< 4) ||| (d 3 >>> 4) < 2 ^ 20 := by
  have h1 : d 1 <<< 12 < 2 ^ 20 := by
    rw [Nat.shiftLeft_eq]
    have := hd 1
    omega
  have h2 : d 2 <<< 4 < 2 ^ 20 := by
    rw [Nat.shiftLeft_eq]
    have := hd 2
    omega
  have h3 : d 3 >>> 4 < 2 ^ 20 := by
    rw [Nat.shiftRight_eq_div_pow]
    have := hd 3
    omega
  exact Nat.or_lt_two_pow (Nat.or_lt_two_pow h1 h2) h3

/-- For byte-valued inputs the `u32` store in `raw_humidity` does not wrap. -/
theorem raw_humidity_eq (d : Fin 6 → Nat) (hd : ∀ i, d i < 256) :
    raw_humidity d = (d 1 <<< 12) ||| (d 2 <<< 4) ||| (d 3 >>> 4) := by
  unfold raw_humidity UINT32
  exact Nat.mod_eq_of_lt
    (Nat.lt_of_lt_of_le (raw_humidity_inner_lt d hd) (by norm_num))

theorem raw_humidity_lt_two_pow_20 (d : Fin 6 → Nat) (hd : ∀ i, d i < 256) :
    raw_humidity d < 2 ^ 20 := by
  rw [raw_humidity_eq d hd]
  exact raw_humidity_inner_lt d hd

theorem raw_temperature_inner_lt (d : Fin 6 → Nat) (hd : ∀ i, d i < 256) :
    ((d 3 &&& 0x0F) <<< 16) ||| (d 4 <<< 8) ||| d 5 < 2 ^ 20 := by
  have h1 : (d 3 &&& 0x0F) <<< 16 < 2 ^ 20 := by
    rw [Nat.shiftLeft_eq]
    have : d 3 &&& 0x0F ≤ 15 := Nat.and_le_right
    omega
  have h2 : d 4 <<< 8 < 2 ^ 20 := by
    rw [Nat.shiftLeft_eq]
    have := hd 4
    omega
  have h3 : d 5 < 2 ^ 20 := by
    have := hd 5
    omega
  exact Nat.or_lt_two_pow (Nat.or_lt_two_pow h1 h2) h3

/-- For byte-valued inputs the `u32` store in `raw_temperature` does not wrap. -/
theorem raw_temperature_eq (d : Fin 6 → Nat) (hd : ∀ i, d i < 256) :
    raw_temperature d = ((d 3 &&& 0x0F) <<< 16) ||| (d 4 <<< 8) ||| d 5 := by
  unfold raw_temperature UINT32
  exact Nat.mod_eq_of_lt
    (Nat.lt_of_lt_of_le (raw_temperature_inner_lt d hd) (by norm_num))

theorem raw_temperature_lt_two_pow_20 (d : Fin 6 → Nat) (hd : ∀ i, d i < 256) :
    raw_temperature d < 2 ^ 20 := by
  rw [raw_temperature_eq d hd]
  exact raw_temperature_inner_lt d hd

/-- For 20-bit raw humidity, the `u32` computation coincides with the
mathematical floor formula. -/
theorem decode_humidity_eq (rh : Nat) (h : rh < 2 ^ 20) :
    decode_humidity rh = rh * 1000 / 2 ^ 20 := by
  unfold decode_humidity UINT32
  have e : (2 : Nat) ^ 20 = 1048576 := by norm_num
  rw [e] at h ⊢
  omega

/-- For 20-bit raw temperature, the `u32` computation followed by signed
reinterpretation coincides with the mathematical formula
`floor(rt * 2000 / 2^20) - 500` over `Int`. -/
theorem decode_temperature_eq (rt : Nat) (h : rt < 2 ^ 20) :
    decode_temperature rt = ((rt * 2000 / 2 ^ 20 : Nat) : Int) - 500 := by
  unfold decode_temperature toInt32 u32_sub UINT32
  have e : (2 : Nat) ^ 20 = 1048576 := by norm_num
  rw [e] at h ⊢
  have h1 : rt % 4294967296 = rt := Nat.mod_eq_of_lt (by omega)
  rw [h1]
  have h2 : rt * 2000 % 4294967296 = rt * 2000 := Nat.mod_eq_of_lt (by omega)
  rw [h2]
  have h3 : rt * 2000 / 1048576 < 2000 := by omega
  generalize rt * 2000 / 1048576 = q at h3 ⊢
  split <;> omega

/-- Flattening a map of constant singleton blocks over `List.range` yields a
replicate: the shape of the display fill loops. -/
theorem flatten_map_singleton {α : Type} (n : Nat) (g : Nat → List α) (a : α)
    (hg : ∀ i, g i = [a]) :
    ((List.range n).map g).flatten = List.replicate n a := by
  induction n with
  | zero => rfl
  | succ k ih =>
      rw [List.range_succ, List.map_append, List.flatten_append, ih,
        List.replicate_succ']
      simp [hg]

/-- The V1 fill loop issues exactly 1024 two-byte data transactions. -/
theorem SSD1306_Fill_eq (busRets : Nat → Int) (p : Nat) :
    V1.SSD1306_Fill busRets p = List.replicate 1024 (BusOp.send [0x40, p]) := by
  unfold V1.SSD1306_Fill
  rw [show (128 * 8 : Nat) = 1024 from rfl]
  exact flatten_map_singleton 1024 _ _
    (fun i => by simp [V1.SSD1306_Write, V1.I2C_Write])

/-- The V2 clear loop issues exactly 1024 zero-pattern data transactions. -/
theorem oled_clear_eq (busRets : Nat → Int) :
    V2.oled_clear busRets = List.replicate 1024 (BusOp.send [0x40, 0x00]) := by
  unfold V2.oled_clear
  exact flatten_map_singleton 1024 _ _ (fun i => by simp [V2.oled_write])

/-- The V2 fill loop issues exactly 1024 `0xFF`-pattern data transactions. -/
theorem oled_fill_eq (busRets : Nat → Int) :
    V2.oled_fill busRets = List.replicate 1024 (BusOp.send [0x40, 0xFF]) := by
  unfold V2.oled_fill
  exact flatten_map_singleton 1024 _ _ (fun i => by simp [V2.oled_write])

/-- C1: for every 6-byte raw input, `decode` computes `raw_humidity` as
`(byte[1] << 12) | (byte[2] << 4) | (byte[3] >> 4)` and `raw_temperature` as
`((byte[3] & 0x0F) << 16) | (byte[4] << 8) | byte[5]` (both 20-bit unsigned
values), and returns `humidity = floor(raw_humidity * 1000 / 2^20)` and
`temperature = floor(raw_temperature * 2000 / 2^20) - 500`, the truncating
division applied before the offset subtraction; the result depends only on
the 6 input bytes. -/
theorem C1_decode_formula (d : Fin 6 → Nat) (hd : ∀ i, d i < 256) :
    raw_humidity d = (d 1 <<< 12) ||| (d 2 <<< 4) ||| (d 3 >>> 4) ∧
    raw_temperature d = ((d 3 &&& 0x0F) <<< 16) ||| (d 4 <<< 8) ||| d 5 ∧
    raw_humidity d < 2 ^ 20 ∧ raw_temperature d < 2 ^ 20 ∧
    decode d =
      { temperature := ((raw_temperature d * 2000 / 2 ^ 20 : Nat) : Int) - 500
        humidity := ((raw_humidity d * 1000 / 2 ^ 20 : Nat) : Int) } ∧
    (∀ d' : Fin 6 → Nat, (∀ i, d i = d' i) → decode d = decode d') := by
  refine ⟨raw_humidity_eq d hd, raw_temperature_eq d hd,
    raw_humidity_lt_two_pow_20 d hd, raw_temperature_lt_two_pow_20 d hd, ?_, ?_⟩
  · unfold decode
    rw [decode_temperature_eq _ (raw_temperature_lt_two_pow_20 d hd),
      decode_humidity_eq _ (raw_humidity_lt_two_pow_20 d hd)]
  · intro d' h
    rw [funext h]

/-- C1 witness: the spec's test vector `[0x00, 0x19, 0x99, 0x9A, 0x66, 0x66]`
decodes to humidity 99 (deci-percent) and temperature 799 (deci-°C). -/
theorem C1_decode_formula_witness :
    (∀ i, (![0x00, 0x19, 0x99, 0x9A, 0x66, 0x66] : Fin 6 → Nat) i < 256) ∧
    decode ![0x00, 0x19, 0x99, 0x9A, 0x66, 0x66] =
      { temperature :=
          ((raw_temperature ![0x00, 0x19, 0x99, 0x9A, 0x66, 0x66] * 2000 /
            2 ^ 20 : Nat) : Int) - 500
        humidity :=
          ((raw_humidity ![0x00, 0x19, 0x99, 0x9A, 0x66, 0x66] * 1000 /
            2 ^ 20 : Nat) : Int) } ∧
    decode ![0x00, 0x19, 0x99, 0x9A, 0x66, 0x66] =
      { temperature := 799, humidity := 99 } :=
  ⟨by decide,
   (C1_decode_formula ![0x00, 0x19, 0x99, 0x9A, 0x66, 0x66]
     (by decide)).2.2.2.2.1,
   by decide⟩

/-- C2: for every 20-bit `raw_temperature`, the decoded temperature
`((raw_temperature * 2000) / 1048576) - 500` — computed in 32-bit unsigned
arithmetic and reinterpreted as a 32-bit signed integer — lies in
`[-500, 1500)`. -/
theorem C2_temperature_range (rt : Nat) (h : rt < 2 ^ 20) :
    -500 ≤ decode_temperature rt ∧ decode_temperature rt < 1500 := by
  rw [decode_temperature_eq rt h]
  have hq : rt * 2000 / 2 ^ 20 < 2000 := by omega
  omega

/-- C2 witness: at the extreme inputs 0 and `2^20 - 1` the bounds hold
(values -500 and 1499). -/
theorem C2_temperature_range_witness :
    (0 : Nat) < 2 ^ 20 ∧ (1048575 : Nat) < 2 ^ 20 ∧
    (-500 ≤ decode_temperature 0 ∧ decode_temperature 0 < 1500) ∧
    (-500 ≤ decode_temperature 1048575 ∧ decode_temperature 1048575 < 1500) ∧
    decode_temperature 0 = -500 ∧ decode_temperature 1048575 = 1499 :=
  ⟨by decide, by decide, C2_temperature_range 0 (by decide),
   C2_temperature_range 1048575 (by decide), by decide, by decide⟩

/-- C3: for every 20-bit `raw_humidity`, the decoded humidity
`(raw_humidity * 1000) / 1048576`, computed in 32-bit unsigned arithmetic,
lies in `[0, 1000)`. -/
theorem C3_humidity_range (rh : Nat) (h : rh < 2 ^ 20) :
    0 ≤ ((decode_humidity rh : Nat) : Int) ∧ decode_humidity rh < 1000 := by
  rw [decode_humidity_eq rh h]
  constructor
  · exact Int.ofNat_nonneg _
  · omega

/-- C3 witness: at the extreme input `2^20 - 1` the bounds hold (value 999). -/
theorem C3_humidity_range_witness :
    (1048575 : Nat) < 2 ^ 20 ∧
    (0 ≤ ((decode_humidity 1048575 : Nat) : Int) ∧
      decode_humidity 1048575 < 1000) ∧
    decode_humidity 1048575 = 999 :=
  ⟨by decide, C3_humidity_range 1048575 (by decide), by decide⟩

/-- C4 counterexample: in i2c_client_driver.c's `aht20_ioctl`, even when the
trigger send and the 6-byte read both report transport failure (-5), the
sequence is not aborted, no error is propagated (return 0), and a decoded
reading is still delivered to the caller. -/
theorem C4_counterexample :
    V2.aht20_ioctl AHT20_READ_DATA (-5) (-5) (fun _ => 0) true =
      (0, some { temperature := -500, humidity := 0 },
        [BusOp.send [0xAC, 0x33, 0x00], BusOp.sleep 80, BusOp.recv 6]) := by
  decide

/-- C4 (amended): in i2c_driver.c, `AHT20_ReadData` runs trigger, then the
80 ms settle delay and a 6-byte read, then decode, as one sequence; a failed
trigger aborts before the read, a failed read aborts before decode, each
failure propagates its error with no reading delivered, and on success the
decoded reading is returned.  In i2c_client_driver.c, `aht20_ioctl` issues
the same sequence but discards the trigger and read results and always
delivers a decoded reading (absent a copy-to-user fault). -/
theorem C4_read_data_sequence :
    (∀ (s r : Int) (d : Fin 6 → Nat), s < 0 →
      V1.AHT20_ReadData s r d =
        (Except.error s, [BusOp.send [0xAC, 0x33, 0x00]])) ∧
    (∀ (s r : Int) (d : Fin 6 → Nat), 0 ≤ s → r < 0 →
      V1.AHT20_ReadData s r d =
        (Except.error r,
          [BusOp.send [0xAC, 0x33, 0x00], BusOp.sleep 80, BusOp.recv 6])) ∧
    (∀ (s r : Int) (d : Fin 6 → Nat), 0 ≤ s → 0 ≤ r →
      V1.AHT20_ReadData s r d =
        (Except.ok (decode d),
          [BusOp.send [0xAC, 0x33, 0x00], BusOp.sleep 80, BusOp.recv 6])) ∧
    (∀ (s r : Int) (d : Fin 6 → Nat),
      V2.aht20_ioctl AHT20_READ_DATA s r d true =
        (0, some (decode d),
          [BusOp.send [0xAC, 0x33, 0x00], BusOp.sleep 80, BusOp.recv 6])) := by
  refine ⟨?_, ?_, ?_, ?_⟩
  · intro s r d hs
    unfold V1.AHT20_ReadData
    rw [if_pos hs]
  · intro s r d hs hr
    unfold V1.AHT20_ReadData
    rw [if_neg (by omega), if_pos hr]
  · intro s r d hs hr
    unfold V1.AHT20_ReadData
    rw [if_neg (by omega), if_neg (by omega)]
  · intro s r d
    unfold V2.aht20_ioctl
    rw [if_neg (by simp)]
    rfl

/-- C4 witness: concrete instances of the amended theorem — a failed trigger
(-5) aborts with error -5 in V1, and the same failed trigger is ignored in
V2. -/
theorem C4_read_data_sequence_witness :
    ((-5 : Int) < 0 ∧
      V1.AHT20_ReadData (-5) 6 (fun _ => 0) =
        (Except.error (-5), [BusOp.send [0xAC, 0x33, 0x00]])) ∧
    ((0 : Int) ≤ 3 ∧ (0 : Int) ≤ 6 ∧
      V1.AHT20_ReadData 3 6 (fun _ => 0) =
        (Except.ok { temperature := -500, humidity := 0 },
          [BusOp.send [0xAC, 0x33, 0x00], BusOp.sleep 80, BusOp.recv 6])) :=
  ⟨⟨by decide, C4_read_data_sequence.1 (-5) 6 (fun _ => 0) (by decide)⟩,
   ⟨by decide, by decide, by
     have h := C4_read_data_sequence.2.2.1 3 6 (fun _ => 0)
       (by decide) (by decide)
     rw [h]
     rfl⟩⟩

/-- C5 counterexample: in i2c_client_driver.c's `etx_init`, when creation of
the display client device fails (PTR_ERR -12) while the sensor creation
would succeed, startup aborts with that error and the sensor is never
registered — contradicting the claim that a failure of one device does not
block registration of the other. -/
theorem C5_counterexample :
    V2.etx_init true false true (-12) (-12) = (-12, false, false) := by
  decide

/-- C5 (amended): in i2c_driver.c's `etx_driver_init` (both devices
selected), a client-creation failure of one device is only logged: the other
device is still registered and startup returns 0.  In i2c_client_driver.c's
`etx_init`, a client-creation failure of either device aborts startup with
that error and registers neither driver. -/
theorem C5_partial_failure :
    (∀ oledOk ahtOk : Bool,
      V1.etx_driver_init 0 true oledOk ahtOk = (0, oledOk, ahtOk)) ∧
    V1.etx_driver_init 0 true false true = (0, false, true) ∧
    V1.etx_driver_init 0 true true false = (0, true, false) ∧
    (∀ e1 e2 : Int, V2.etx_init true false true e1 e2 = (e1, false, false)) ∧
    (∀ e1 e2 : Int, V2.etx_init true true false e1 e2 = (e2, false, false)) := by
  refine ⟨?_, by decide, by decide, ?_, ?_⟩
  · intro oledOk ahtOk
    simp [V1.etx_driver_init]
  · intro e1 e2
    simp [V2.etx_init]
  · intro e1 e2
    simp [V2.etx_init]

/-- C6 counterexample: the display bind hook of i2c_client_driver.c
(`oled_probe`) performs no fill with the "on" pattern at all — no `0xFF` data
transaction occurs in its trace — and never emits the charge-pump command
`0x8D`, contradicting the claimed command list and trailing full fill. -/
theorem C6_counterexample :
    BusOp.send [0x40, 0xFF] ∉ (V2.oled_probe (fun _ => 0)).2 ∧
    BusOp.send [0x00, 0x8D] ∉ (V2.oled_probe (fun _ => 0)).2 := by
  decide

/-- C6 (amended): in i2c_driver.c, the display probe emits, identically on
every invocation, the fixed 26-command sequence `0xAE, 0xD5, 0x80, 0xA8,
0x3F, 0xD3, 0x00, 0x40, 0x8D, 0x14, 0x20, 0x00, 0xA1, 0xC8, 0xDA, 0x12,
0x81, 0x80, 0xD9, 0xF1, 0xDB, 0x20, 0xA4, 0xA6, 0x2E, 0xAF` in exactly that
order (multiplexer ratio, clock divider, display height, charge-pump enable,
segment-remap, COM-scan direction, contrast, display-on) and then fills the
display with 1024 `0xFF` data transactions.  In i2c_client_driver.c, the
display probe emits only the 4 commands `0xAE, 0xA8, 0x3F, 0xAF` and
performs no fill. -/
theorem C6_display_init_sequence :
    (∀ f g : Nat → Int,
      V1.etx_oled_probe f g =
        (0, BusOp.sleep 100 ::
          (([0xAE, 0xD5, 0x80, 0xA8, 0x3F, 0xD3, 0x00, 0x40, 0x8D, 0x14,
             0x20, 0x00, 0xA1, 0xC8, 0xDA, 0x12, 0x81, 0x80, 0xD9, 0xF1,
             0xDB, 0x20, 0xA4, 0xA6, 0x2E, 0xAF].map
              fun c => BusOp.send [0x00, c]) ++
            List.replicate 1024 (BusOp.send [0x40, 0xFF])))) ∧
    (∀ f : Nat → Int,
      V2.oled_probe f =
        (0, [BusOp.sleep 100, BusOp.send [0x00, 0xAE], BusOp.send [0x00, 0xA8],
             BusOp.send [0x00, 0x3F], BusOp.send [0x00, 0xAF]])) := by
  constructor
  · intro f g
    unfold V1.etx_oled_probe
    rw [SSD1306_Fill_eq]
    rfl
  · intro f
    rfl

/-- C7: for every pattern byte, `SSD1306_Fill(pattern)` issues exactly 1024
individual one-data-byte write transactions (128 columns × 8 pages), each
carrying the same pattern byte, independent of the pattern value and of any
bus results; clear is fill with pattern 0x00 (i2c_client_driver.c's
`oled_clear`, and i2c_driver.c's remove-time `SSD1306_Fill(0x00)`, both
produce that trace). -/
theorem C7_fill_1024_transactions :
    (∀ (f : Nat → Int) (p : Nat),
      V1.SSD1306_Fill f p = List.replicate 1024 (BusOp.send [0x40, p]) ∧
      (V1.SSD1306_Fill f p).length = 1024) ∧
    (∀ f : Nat → Int,
      V2.oled_clear f = List.replicate 1024 (BusOp.send [0x40, 0x00]) ∧
      V2.oled_fill f = List.replicate 1024 (BusOp.send [0x40, 0xFF]) ∧
      V2.oled_clear f = V1.SSD1306_Fill f 0x00 ∧
      V1.etx_oled_remove f = List.replicate 1024 (BusOp.send [0x40, 0x00])) := by
  constructor
  · intro f p
    refine ⟨SSD1306_Fill_eq f p, ?_⟩
    rw [SSD1306_Fill_eq f p, List.length_replicate]
  · intro f
    refine ⟨oled_clear_eq f, oled_fill_eq f, ?_, ?_⟩
    · rw [oled_clear_eq f, SSD1306_Fill_eq f 0x00]
    · unfold V1.etx_oled_remove
      rw [SSD1306_Fill_eq f 0x00]

/-- C8 counterexample: the sensor bind hook of i2c_client_driver.c
(`aht20_probe`) performs no bus operation at all — in particular it never
sends the 3-byte initialization command `{0xBE, 0x08, 0x00}` and performs no
40 ms delay. -/
theorem C8_counterexample :
    BusOp.send [0xBE, 0x08, 0x00] ∉ V2.aht20_probe.2 ∧
    BusOp.sleep 40 ∉ V2.aht20_probe.2 := by
  decide

/-- C8 (amended): in i2c_driver.c, `AHT20_Init` sends the 3-byte
initialization command `{0xBE, 0x08, 0x00}` and waits the 40 ms settle
delay on every path, and the bind hook `aht20_probe` returns 0 regardless of
the init send's outcome (failure is only logged).  In i2c_client_driver.c,
the sensor bind hook sends nothing and likewise returns 0. -/
theorem C8_sensor_bind :
    (∀ s : Int, V1.AHT20_Init s =
      (s, [BusOp.send [0xBE, 0x08, 0x00], BusOp.sleep 40])) ∧
    (∀ (s t r : Int) (d : Fin 6 → Nat), (V1.aht20_probe s t r d).1 = 0) ∧
    (V1.aht20_probe (-5) (-5) (-5) (fun _ => 0)).1 = 0 ∧
    V2.aht20_probe = (0, []) := by
  refine ⟨fun s => rfl, fun s t r d => rfl, rfl, rfl⟩

/-- C9: per channel — any request code on the display channel other than
that channel's recognized kinds `OLED_CLEAR` and `OLED_FILL` fails with
`-EINVAL` and performs no bus transaction, and any request code on the
sensor channel other than its recognized kind `AHT20_READ_DATA` fails with
`-EINVAL` and performs no bus transaction (so in particular a sensor code
sent to the display channel, or a display code sent to the sensor channel,
is rejected). -/
theorem C9_unknown_request (cmd : Nat) :
    (cmd ≠ OLED_CLEAR → cmd ≠ OLED_FILL →
      ∀ f : Nat → Int, V2.oled_ioctl f cmd = (-EINVAL, [])) ∧
    (cmd ≠ AHT20_READ_DATA →
      ∀ (s r : Int) (d : Fin 6 → Nat) (c : Bool),
        V2.aht20_ioctl cmd s r d c = (-EINVAL, none, [])) := by
  constructor
  · intro h1 h2 f
    unfold V2.oled_ioctl
    rw [if_neg h1, if_neg h2]
  · intro h3 s r d c
    unfold V2.aht20_ioctl
    rw [if_pos h3]

/-- C9 witness: concrete instances per channel — the sensor code
`AHT20_READ_DATA` submitted on the display channel, the display code
`OLED_CLEAR` submitted on the sensor channel, and the code 0 on both, are
each rejected with `-EINVAL` and an empty bus trace. -/
theorem C9_unknown_request_witness :
    (AHT20_READ_DATA ≠ OLED_CLEAR ∧ AHT20_READ_DATA ≠ OLED_FILL ∧
      V2.oled_ioctl (fun _ => 0) AHT20_READ_DATA = (-EINVAL, [])) ∧
    (OLED_CLEAR ≠ AHT20_READ_DATA ∧
      V2.aht20_ioctl OLED_CLEAR 0 0 (fun _ => 0) true =
        (-EINVAL, none, [])) ∧
    ((0 : Nat) ≠ OLED_CLEAR ∧ (0 : Nat) ≠ OLED_FILL ∧
      (0 : Nat) ≠ AHT20_READ_DATA ∧
      V2.oled_ioctl (fun _ => 0) 0 = (-EINVAL, []) ∧
      V2.aht20_ioctl 0 0 0 (fun _ => 0) true = (-EINVAL, none, [])) :=
  ⟨⟨by decide, by decide,
    (C9_unknown_request AHT20_READ_DATA).1 (by decide) (by decide)
      (fun _ => 0)⟩,
   ⟨by decide,
    (C9_unknown_request OLED_CLEAR).2 (by decide) 0 0 (fun _ => 0) true⟩,
   ⟨by decide, by decide, by decide,
    (C9_unknown_request 0).1 (by decide) (by decide) (fun _ => 0),
    (C9_unknown_request 0).2 (by decide) 0 0 (fun _ => 0) true⟩⟩

/-- C10: every display-side operation discards the result of the underlying
bus send — each operation's output is the same for any two bus-result
oracles; consequently Clear and Fill control requests return 0 even when
every one of their 1024 transactions fails (oracle constantly -5), the
display bind hook returns 0, and the display ioctl can only ever return 0 or
`-EINVAL`, never a transport error. -/
theorem C10_display_discards_errors :
    (∀ (r r' : Int) (ic : Bool) (dat : Nat),
      V1.SSD1306_Write r ic dat = V1.SSD1306_Write r' ic dat) ∧
    (∀ (r r' : Int) (m dat : Nat), V2.oled_write r m dat = V2.oled_write r' m dat) ∧
    (∀ f g : Nat → Int,
      V1.SSD1306_DisplayInit f = V1.SSD1306_DisplayInit g ∧
      V2.oled_init f = V2.oled_init g) ∧
    (∀ (f g : Nat → Int) (p : Nat), V1.SSD1306_Fill f p = V1.SSD1306_Fill g p) ∧
    (∀ f g : Nat → Int, V2.oled_clear f = V2.oled_clear g ∧
      V2.oled_fill f = V2.oled_fill g) ∧
    (∀ (f g : Nat → Int) (cmd : Nat), V2.oled_ioctl f cmd = V2.oled_ioctl g cmd) ∧
    (V2.oled_ioctl (fun _ => -5) OLED_CLEAR).1 = 0 ∧
    (V2.oled_ioctl (fun _ => -5) OLED_FILL).1 = 0 ∧
    (∀ f g : Nat → Int, (V1.etx_oled_probe f g).1 = 0) ∧
    (∀ (f : Nat → Int) (cmd : Nat),
      (V2.oled_ioctl f cmd).1 = 0 ∨ (V2.oled_ioctl f cmd).1 = -EINVAL) := by
  refine ⟨fun r r' ic dat => rfl, fun r r' m dat => rfl,
    fun f g => ⟨rfl, rfl⟩, ?_, fun f g => ⟨?_, ?_⟩, ?_, ?_, ?_,
    fun f g => rfl, ?_⟩
  · intro f g p
    rw [SSD1306_Fill_eq, SSD1306_Fill_eq]
  · rw [oled_clear_eq, oled_clear_eq]
  · rw [oled_fill_eq, oled_fill_eq]
  · intro f g cmd
    unfold V2.oled_ioctl
    by_cases h1 : cmd = OLED_CLEAR
    · rw [if_pos h1, if_pos h1, oled_clear_eq, oled_clear_eq]
    · rw [if_neg h1, if_neg h1]
      by_cases h2 : cmd = OLED_FILL
      · rw [if_pos h2, if_pos h2, oled_fill_eq, oled_fill_eq]
      · rw [if_neg h2, if_neg h2]
  · rfl
  · rfl
  · intro f cmd
    unfold V2.oled_ioctl
    by_cases h1 : cmd = OLED_CLEAR
    · rw [if_pos h1]
      exact Or.inl rfl
    · rw [if_neg h1]
      by_cases h2 : cmd = OLED_FILL
      · rw [if_pos h2]
        exact Or.inl rfl
      · rw [if_neg h2]
        exact Or.inr rfl

end I2CClientDriver
